import Mathlib

/-!
Shallow embedding of the payment ledger and receipt-numbering engine of
`src/main.py` (a Flask back office for a pathology laboratory).

Currency amounts are modelled as `Int` (the Python code uses floats, but every
business rule is exact integer-or-decimal arithmetic; the claims are all stated
on exact values).  The relational store is modelled as explicit lists of rows;
a handler is a function from the store and the request to the response and the
new store.  The quirk that `generer_numero_recu` opens its own connection and
commits independently of the enclosing request (main.py lines 56-146) is kept:
the counter mutation survives a later error in the payment handler.
-/

namespace Anapath

/-- A row of the `patients` table (main.py schema: id, user_id, nom, ..., solde). -/
structure Patient where
  id : Nat
  userId : String
  nom : String
  solde : Int
  deriving DecidableEq

/-- A row of the `paiements` table (main.py: user_id, patient_id, utilisateur_id,
montant, type_paiement, mode_paiement, montant_total, numero_cr, notes). -/
structure Paiement where
  id : Nat
  userId : String
  patientId : Option Nat
  utilisateurId : Option Nat
  montant : Int
  typePaiement : String
  modePaiement : String
  montantTotal : Option Int
  numeroCr : Option String
  notes : Option String
  deriving DecidableEq

/-- A row of the `compteurs_recus` table (main.py: user_id, type_examen, annee,
mois, compteur). -/
structure Compteur where
  userId : String
  typeExamen : String
  annee : Nat
  mois : Nat
  compteur : Nat
  deriving DecidableEq

/-- The relational store: the three tables the payment core touches, plus the
serial id the next inserted payment row receives. -/
structure DB where
  patients : List Patient
  paiements : List Paiement
  compteurs : List Compteur
  nextPaiementId : Nat
  deriving DecidableEq

/-! ## Receipt sequencer (main.py `generer_numero_recu`, lines 56-146) -/

/-- Python `str.lower()` on the ASCII identifiers this system uses: per-char
lower-casing.  (`String.toLower` is extensionally the same but is defined by
well-founded recursion and does not evaluate in the kernel, so the list form is
used.) -/
def pyLower (s : String) : String :=
  String.mk (s.data.map Char.toLower)

/-- Python `str.strip()`: drop leading and trailing whitespace. -/
def pyStrip (s : String) : String :=
  String.mk ((s.data.dropWhile Char.isWhitespace).reverse.dropWhile Char.isWhitespace).reverse

/-- The `type_lettres` dict of main.py lines 77-87 together with the
`.get(..., 'H')` default of line 95: exam type (already lower-cased) to letter. -/
def type_lettres_get (t : String) : String :=
  if t = "histologie" then "H"
  else if t = "biopsie" then "B"
  else if t = "cytologie" then "C"
  else if t = "fcv" then "F"
  else if t = "immuno-histochimie" then "I"
  else if t = "consultation" then "H"
  else if t = "examen" then "H"
  else if t = "analyse" then "H"
  else if t = "autre" then "H"
  else "H"

/-- `type_lettres.get(type_examen.lower(), 'H')` of main.py line 95. -/
def type_lettre (typeExamen : String) : String :=
  type_lettres_get (pyLower typeExamen)

/-- The `mois_lettres` dict of main.py lines 89-92: month 1-12 to letter A-L.
Python raises `KeyError` outside 1-12; the month always comes from
`datetime.now().month`, so that case is unreachable and modelled as the empty
string. -/
def mois_lettre (m : Nat) : String :=
  if m = 1 then "A"
  else if m = 2 then "B"
  else if m = 3 then "C"
  else if m = 4 then "D"
  else if m = 5 then "E"
  else if m = 6 then "F"
  else if m = 7 then "G"
  else if m = 8 then "H"
  else if m = 9 then "I"
  else if m = 10 then "J"
  else if m = 11 then "K"
  else if m = 12 then "L"
  else ""

/-- Python `f-string` zero padding `{n:0wd}`: decimal digits of `n`, left-padded
with zeros to at least `w` characters. -/
def zfill (w : Nat) (n : Nat) : String :=
  let s := toString n
  String.mk (List.replicate (w - s.length) '0') ++ s

/-- Whether a `compteurs_recus` row has the given composite key, as in the
`WHERE user_id = .. AND type_examen = .. AND annee = .. AND mois = ..` clauses. -/
def keyMatch (r : Compteur) (uid t : String) (a m : Nat) : Bool :=
  r.userId == uid && r.typeExamen == t && r.annee == a && r.mois == m

/-- The counter value stored for a bucket key, 0 when the row is absent. -/
def getCompteur (cs : List Compteur) (uid t : String) (a m : Nat) : Nat :=
  match cs.find? (fun r => keyMatch r uid t a m) with
  | some r => r.compteur
  | none => 0

/-- `UPDATE compteurs_recus SET compteur = %s WHERE user_id = .. AND
type_examen = .. AND annee = .. AND mois = ..` (main.py lines 111-116). -/
def updCompteur (cs : List Compteur) (uid t : String) (a m v : Nat) : List Compteur :=
  cs.map (fun q => if keyMatch q uid t a m then { q with compteur := v } else q)

/-- The counter value a generation call issues (main.py lines 105-124):
`existing['compteur'] + 1` when the row exists, else `1`. -/
def issuedCompteur (cs : List Compteur) (uid typeExamen : String) (year mois : Nat) : Nat :=
  match cs.find? (fun r => keyMatch r uid (pyLower typeExamen) (year % 100) mois) with
  | some r => r.compteur + 1
  | none => 1

/-- `generer_numero_recu` of main.py lines 56-133 on its success path: derive
`annee = year % 100`, map type and month to letters, SELECT the counter row,
either UPDATE it to `existing + 1` or INSERT it with value 1, and return the
formatted code `f"{compteur:03d}{type_lettre}{annee:02d}{mois_lettre}"` together
with the new `compteurs_recus` table (committed on the function's own
connection). -/
def generer_numero_recu (cs : List Compteur) (uid typeExamen : String)
    (year mois : Nat) : String × List Compteur :=
  let annee := year % 100
  let tlow := (pyLower typeExamen)
  let tl := type_lettre typeExamen
  let ml := mois_lettre mois
  match cs.find? (fun r => keyMatch r uid tlow annee mois) with
  | some r =>
      let compteur := r.compteur + 1
      (zfill 3 compteur ++ tl ++ zfill 2 annee ++ ml,
       updCompteur cs uid tlow annee mois compteur)
  | none =>
      (zfill 3 1 ++ tl ++ zfill 2 annee ++ ml,
       cs ++ [⟨uid, tlow, annee, mois, 1⟩])

/-- `n` successive sequencer calls for one bucket, starting from an empty
`compteurs_recus` table. -/
def genIter (uid t : String) (y m : Nat) : Nat → List Compteur
  | 0 => []
  | n + 1 => (generer_numero_recu (genIter uid t y m n) uid t y m).2

/-! ## Payment creation (main.py `paiements` POST branch, lines 2686-2811) -/

/-- The JSON body of a POST `/paiements` request.  `none` models an absent key;
`required = ['patient_id', 'montant', 'type_paiement', 'mode_paiement']`. -/
structure PaiementRequest where
  patient_id : Option Nat
  montant : Option Int
  type_paiement : Option String
  mode_paiement : Option String
  montant_total : Option Int
  numero_cr : Option String
  utilisateur_id : Option Nat
  notes : Option String
  deriving DecidableEq

/-- Outcome of a POST `/paiements` request: an HTTP error (status, message) or
a 201 with the inserted row id, the receipt code, `nouveau_solde` and the
human-readable message. -/
inductive PaiementsResult where
  | error (status : Nat) (erreur : String)
  | created (id : Nat) (numeroCr : String) (nouveauSolde : Int) (message : String)
  deriving DecidableEq

/-- `SELECT nom, solde FROM patients WHERE id = %s AND user_id = %s` with
`fetchone()`: the first matching row. -/
def findPatient (ps : List Patient) (pid : Nat) (uid : String) : Option Patient :=
  ps.find? (fun p => p.id == pid && p.userId == uid)

/-- `UPDATE patients SET solde = %s WHERE id = %s AND user_id = %s`. -/
def updateSolde (ps : List Patient) (pid : Nat) (uid : String) (s : Int) : List Patient :=
  ps.map (fun p => if p.id == pid && p.userId == uid then { p with solde := s } else p)

/-- Python `f"{x:.2f}"` on an integral amount. -/
def fmt2 (x : Int) : String :=
  toString x ++ ".00"

/-- The POST branch of `paiements` (main.py lines 2686-2811).  Steps, in the
code's order: required-field check; receipt-code generation when `numero_cr` is
absent or blank (this runs `generer_numero_recu`, which commits on its own
connection, so its counter write persists even if the request then fails);
patient lookup (404 when absent); for mode `a_terme` the
`montant_total > montant` check (400); INSERT of the payment row; the
mode-specific balance update (`a_terme`: subtract the remainder;
`paiement_partiel`: add `montant` with no clamp; anything else: no update). -/
def paiementsPost (db : DB) (uid : String) (req : PaiementRequest)
    (year mois : Nat) : PaiementsResult × DB :=
  if req.patient_id.isNone || req.montant.isNone
      || req.type_paiement.isNone || req.mode_paiement.isNone then
    (.error 400 "Champs obligatoires manquants", db)
  else
    let montant_paye := req.montant.getD 0
    let mode_paiement := req.mode_paiement.getD ""
    let type_paiement := req.type_paiement.getD "consultation"
    let pid := req.patient_id.getD 0
    let provided := pyStrip (req.numero_cr.getD "")
    let gen := if provided = "" then generer_numero_recu db.compteurs uid type_paiement year mois
               else (provided, db.compteurs)
    let numero_cr := gen.1
    let db1 : DB := { db with compteurs := gen.2 }
    match findPatient db1.patients pid uid with
    | none => (.error 404 "Patient non trouvé", db1)
    | some patient =>
      let solde_actuel := patient.solde
      if mode_paiement = "a_terme" && req.montant_total.getD 0 ≤ montant_paye then
        (.error 400 "Le montant total doit être supérieur au montant payé pour un paiement à terme", db1)
      else
        let montant_total : Option Int :=
          if mode_paiement = "a_terme" then some (req.montant_total.getD 0) else none
        let newId := db1.nextPaiementId
        let row : Paiement :=
          ⟨newId, uid, some pid, req.utilisateur_id, montant_paye, type_paiement,
           mode_paiement, montant_total, some numero_cr, req.notes⟩
        let db2 : DB := { db1 with paiements := db1.paiements ++ [row],
                                   nextPaiementId := newId + 1 }
        if mode_paiement = "a_terme" then
          let reste_a_payer := req.montant_total.getD 0 - montant_paye
          let nouveau_solde := solde_actuel - reste_a_payer
          (.created newId numero_cr nouveau_solde
             ("Paiement à terme enregistré. Reste à payer: " ++ fmt2 reste_a_payer ++ " DA"),
           { db2 with patients := updateSolde db2.patients pid uid nouveau_solde })
        else if mode_paiement = "paiement_partiel" then
          let nouveau_solde := solde_actuel + montant_paye
          (.created newId numero_cr nouveau_solde
             ("Paiement partiel enregistré. Nouveau solde: " ++ fmt2 nouveau_solde ++ " DA"),
           { db2 with patients := updateSolde db2.patients pid uid nouveau_solde })
        else
          (.created newId numero_cr solde_actuel
             ("Paiement comptant enregistré: " ++ fmt2 montant_paye ++ " DA"), db2)

/-! ## Dedicated partial payment (main.py `paiement_partiel`, lines 2824-2926) -/

/-- The JSON body of POST `/paiements/paiement-partiel`;
`required = ['patient_id', 'montant']`. -/
structure PartielRequest where
  patient_id : Option Nat
  montant : Option Int
  type_paiement : Option String
  numero_cr : Option String
  notes : Option String
  deriving DecidableEq

/-- Outcome of the dedicated partial-payment endpoint: an error, or a 201 with
the row id, `nouveau_solde`, the `dette_reglee` boolean and the message. -/
inductive PartielResult where
  | error (status : Nat) (erreur : String)
  | created (id : Nat) (nouveauSolde : Int) (detteReglee : Bool) (message : String)
  deriving DecidableEq

/-- `paiement_partiel` (main.py lines 2824-2926): required-field check; patient
lookup (404); `nouveau_solde = solde_actuel + montant`;
`dette_reglee = nouveau_solde >= 0`; clamp `nouveau_solde` to 0 when positive;
INSERT the row with mode `paiement_partiel`; UPDATE the patient's `solde`. -/
def paiementPartielPost (db : DB) (uid : String) (req : PartielRequest)
    (utilisateurId : Option Nat) : PartielResult × DB :=
  if req.patient_id.isNone || req.montant.isNone then
    (.error 400 "Champs obligatoires manquants", db)
  else
    let montant_paye := req.montant.getD 0
    let pid := req.patient_id.getD 0
    match findPatient db.patients pid uid with
    | none => (.error 404 "Patient non trouvé", db)
    | some patient =>
      let solde_actuel := patient.solde
      let brut := solde_actuel + montant_paye
      let dette_reglee := decide (brut ≥ 0)
      let nouveau_solde := if brut > 0 then 0 else brut
      let newId := db.nextPaiementId
      let row : Paiement :=
        ⟨newId, uid, some pid, utilisateurId, montant_paye,
         req.type_paiement.getD "consultation", "paiement_partiel", none,
         req.numero_cr, req.notes⟩
      let message :=
        if dette_reglee then "Dette entièrement réglée"
        else "Paiement partiel enregistré. Dette restante: " ++ fmt2 |nouveau_solde| ++ " DA"
      (.created newId nouveau_solde dette_reglee message,
       { db with paiements := db.paiements ++ [row],
                 patients := updateSolde db.patients pid uid nouveau_solde,
                 nextPaiementId := newId + 1 })

/-! ## Payment deletion (main.py `paiement_detail` DELETE branch, lines 2976-3012) -/

/-- Outcome of DELETE `/paiements/id`. -/
inductive DeleteResult where
  | error (status : Nat) (erreur : String)
  | ok (message : String)
  deriving DecidableEq

/-- `SUM(montant)` with `COALESCE(..., 0)` over one patient's payments of one
tenant. -/
def sumMontant (ps : List Paiement) : Int :=
  ps.foldr (fun p acc => p.montant + acc) 0

/-- The DELETE branch of `paiement_detail` (main.py lines 2976-3012): find the
payment for the tenant (404 when absent); DELETE it; when its `patient_id` is
truthy, recompute the patient's `solde` as the plain `SUM(montant)` over the
remaining payments of that patient and tenant, ignoring the payments' modes. -/
def paiementDelete (db : DB) (uid : String) (id : Nat) : DeleteResult × DB :=
  match db.paiements.find? (fun p => p.userId == uid && p.id == id) with
  | none => (.error 404 "Paiement non trouvé", db)
  | some payment =>
    let remaining := db.paiements.filter (fun p => !(p.userId == uid && p.id == id))
    let db1 : DB := { db with paiements := remaining }
    if payment.patientId.getD 0 ≠ 0 then
      let pid := payment.patientId.getD 0
      let total_paye :=
        sumMontant (remaining.filter (fun p => p.userId == uid && p.patientId == some pid))
      (.ok "Paiement supprimé avec succès",
       { db1 with patients := updateSolde db1.patients pid uid total_paye })
    else
      (.ok "Paiement supprimé avec succès", db1)

/-! ## Interleaving model of the sequencer's counter access

`generer_numero_recu` reads the counter row with a plain SELECT (main.py lines
101-106), computes `existing['compteur'] + 1` in Python (line 110), and writes
it back with `UPDATE ... SET compteur = %s` (lines 111-116).  Two concurrent
requests are modelled as two threads, each one executing this read step and
this write step, interleaved in any order over the shared stored counter. -/

/-- Program counter of one sequencer execution: about to SELECT, about to
UPDATE/INSERT, or finished. -/
inductive SeqPc where
  | read
  | write
  | done
  deriving DecidableEq

/-- One in-flight sequencer execution: its program counter and the counter
value it computed from its read (meaningful once past the read). -/
structure SeqThread where
  pc : SeqPc
  localC : Nat
  deriving DecidableEq

/-- Shared state of two concurrent sequencer executions on one bucket:
the stored counter row (`none` = row absent) and the two threads. -/
structure RaceState where
  store : Option Nat
  t1 : SeqThread
  t2 : SeqThread
  deriving DecidableEq

/-- One step of one thread against the shared row: the read computes
`existing + 1` (or 1 when the row is absent), exactly as main.py lines 105-122;
the write persists the computed value. -/
def threadStep (store : Option Nat) (t : SeqThread) : Option Nat × SeqThread :=
  match t.pc with
  | .read =>
      match store with
      | some c => (store, ⟨.write, c + 1⟩)
      | none => (store, ⟨.write, 1⟩)
  | .write => (some t.localC, ⟨.done, t.localC⟩)
  | .done => (store, t)

/-- Run one step of thread 1 (`first = true`) or thread 2. -/
def raceStep (s : RaceState) (first : Bool) : RaceState :=
  if first then
    let r := threadStep s.store s.t1
    ⟨r.1, r.2, s.t2⟩
  else
    let r := threadStep s.store s.t2
    ⟨r.1, s.t1, r.2⟩

/-- Run a whole schedule (a list of thread choices). -/
def raceRun (s : RaceState) : List Bool → RaceState
  | [] => s
  | b :: bs => raceRun (raceStep s b) bs

/-! ## Claim-side (spec-worded) receipt format, for the refinement claim C7 -/

/-- Modelled from the spec's words: the case-insensitive fixed table
histologie→H, biopsie→B, cytologie→C, fcv→F, immuno-histochimie→I, any other
type defaulting to H. -/
def claimTypeLetter (t : String) : String :=
  if (pyLower t) = "histologie" then "H"
  else if (pyLower t) = "biopsie" then "B"
  else if (pyLower t) = "cytologie" then "C"
  else if (pyLower t) = "fcv" then "F"
  else if (pyLower t) = "immuno-histochimie" then "I"
  else "H"

/-- Modelled from the spec's words: month letter A (January) through
L (December). -/
def claimMonthLetter (m : Nat) : String :=
  String.singleton (Char.ofNat (64 + m))

/-- Modelled from the spec's words: counter zero-padded to 3 digits, then the
type letter, then the year mod 100 zero-padded to 2 digits, then the month
letter. -/
def claimFormat (c : Nat) (t : String) (y m : Nat) : String :=
  zfill 3 c ++ claimTypeLetter t ++ zfill 2 (y % 100) ++ claimMonthLetter m

/-! ## Helper lemmas on `find?` over row updates -/

theorem find?_map_of_pres {α : Type} (p : α → Bool) (g : α → α)
    (hp : ∀ x, p (g x) = p x) (cs : List α) :
    (cs.map g).find? p = (cs.find? p).map g := by
  induction cs with
  | nil => rfl
  | cons x xs ih =>
      by_cases hx : p x = true
      · rw [List.map_cons, List.find?_cons_of_pos _ (by rw [hp]; exact hx),
            List.find?_cons_of_pos _ hx]
        rfl
      · rw [List.map_cons, List.find?_cons_of_neg _ (by rw [hp]; simpa using hx),
            List.find?_cons_of_neg _ (by simpa using hx), ih]

theorem find?_map_of_invariant {α : Type} (p : α → Bool) (g : α → α)
    (hp : ∀ x, p (g x) = p x) (hid : ∀ x, p x = true → g x = x) (cs : List α) :
    (cs.map g).find? p = cs.find? p := by
  rw [find?_map_of_pres p g hp]
  cases hf : cs.find? p with
  | none => rfl
  | some r =>
      show some (g r) = some r
      rw [hid r (List.find?_some hf)]

/-- Updating the `compteur` field leaves every key predicate unchanged. -/
theorem keyMatch_set_compteur (r : Compteur) (uid t : String) (a m v : Nat) :
    keyMatch { r with compteur := v } uid t a m = keyMatch r uid t a m := rfl

/-- The issued counter is the stored counter plus one (absent row = 0). -/
theorem issuedCompteur_eq_getCompteur (cs : List Compteur) (uid t : String) (y m : Nat) :
    issuedCompteur cs uid t y m = getCompteur cs uid (pyLower t) (y % 100) m + 1 := by
  unfold issuedCompteur getCompteur
  cases hf : cs.find? (fun r => keyMatch r uid (pyLower t) (y % 100) m) <;> simp [hf]

/-- The code returned by the sequencer embeds the issued counter in the
documented layout. -/
theorem generer_numero_recu_fst (cs : List Compteur) (uid t : String) (y m : Nat) :
    (generer_numero_recu cs uid t y m).1 =
      zfill 3 (issuedCompteur cs uid t y m) ++ type_lettre t
        ++ zfill 2 (y % 100) ++ mois_lettre m := by
  unfold generer_numero_recu issuedCompteur
  cases hf : cs.find? (fun r => keyMatch r uid (pyLower t) (y % 100) m) <;> simp [hf]

/-- After the UPDATE, the updated bucket holds the written value (provided the
row existed, which the handler's SELECT established). -/
theorem getCompteur_updCompteur (cs : List Compteur) (uid t : String) (a m v : Nat)
    (r : Compteur) (hf : cs.find? (fun x => keyMatch x uid t a m) = some r) :
    getCompteur (updCompteur cs uid t a m v) uid t a m = v := by
  have hpres : ∀ x : Compteur,
      keyMatch (if keyMatch x uid t a m then { x with compteur := v } else x) uid t a m
        = keyMatch x uid t a m := by
    intro x
    by_cases hx : keyMatch x uid t a m = true
    · rw [if_pos hx, keyMatch_set_compteur]
    · rw [if_neg hx]
  have hmap := find?_map_of_pres (fun x => keyMatch x uid t a m)
    (fun x => if keyMatch x uid t a m then { x with compteur := v } else x) hpres cs
  have hpr0 := List.find?_some hf
  have hpr : keyMatch r uid t a m = true := hpr0
  unfold getCompteur updCompteur
  rw [hmap, hf]
  show (if keyMatch r uid t a m then ({ r with compteur := v } : Compteur) else r).compteur = v
  rw [if_pos hpr]

/-- The UPDATE leaves every row of a disjoint key untouched. -/
theorem getCompteur_updCompteur_other (cs : List Compteur) (uid t : String)
    (a m v : Nat) (quid qt : String) (qa qm : Nat)
    (hdis : ∀ x : Compteur, keyMatch x quid qt qa qm = true →
      keyMatch x uid t a m = false) :
    getCompteur (updCompteur cs uid t a m v) quid qt qa qm
      = getCompteur cs quid qt qa qm := by
  have hpres : ∀ x : Compteur,
      keyMatch (if keyMatch x uid t a m then { x with compteur := v } else x) quid qt qa qm
        = keyMatch x quid qt qa qm := by
    intro x
    by_cases hx : keyMatch x uid t a m = true
    · rw [if_pos hx, keyMatch_set_compteur]
    · rw [if_neg hx]
  have hid : ∀ x : Compteur, keyMatch x quid qt qa qm = true →
      (if keyMatch x uid t a m then ({ x with compteur := v } : Compteur) else x) = x := by
    intro x hx
    rw [if_neg]
    rw [hdis x hx]
    exact Bool.false_ne_true
  have hmap := find?_map_of_invariant (fun x => keyMatch x quid qt qa qm)
    (fun x => if keyMatch x uid t a m then { x with compteur := v } else x) hpres hid cs
  unfold getCompteur updCompteur
  rw [hmap]

/-- Appending a row whose key matches, below a table with no match, makes the
appended value the stored one. -/
theorem getCompteur_append_same (cs : List Compteur) (c : Compteur)
    (quid qt : String) (qa qm : Nat)
    (hf : cs.find? (fun x => keyMatch x quid qt qa qm) = none)
    (hc : keyMatch c quid qt qa qm = true) :
    getCompteur (cs ++ [c]) quid qt qa qm = c.compteur := by
  unfold getCompteur
  rw [List.find?_append, hf]
  simp [List.find?, hc]

/-- Appending a row of a different key does not change a bucket's value. -/
theorem getCompteur_append_other (cs : List Compteur) (c : Compteur)
    (quid qt : String) (qa qm : Nat) (hc : keyMatch c quid qt qa qm = false) :
    getCompteur (cs ++ [c]) quid qt qa qm = getCompteur cs quid qt qa qm := by
  unfold getCompteur
  rw [List.find?_append]
  cases hfc : cs.find? (fun x => keyMatch x quid qt qa qm) with
  | some r => rfl
  | none => simp [List.find?, hc]

/-- One sequencer call bumps the stored counter of its own bucket by one. -/
theorem getCompteur_generer (cs : List Compteur) (uid t : String) (y m : Nat) :
    getCompteur (generer_numero_recu cs uid t y m).2 uid (pyLower t) (y % 100) m
      = getCompteur cs uid (pyLower t) (y % 100) m + 1 := by
  simp only [generer_numero_recu]
  cases hf : cs.find? (fun r => keyMatch r uid (pyLower t) (y % 100) m) with
  | some r =>
      show getCompteur (updCompteur cs uid (pyLower t) (y % 100) m (r.compteur + 1))
          uid (pyLower t) (y % 100) m = getCompteur cs uid (pyLower t) (y % 100) m + 1
      rw [getCompteur_updCompteur cs uid (pyLower t) (y % 100) m (r.compteur + 1) r hf]
      unfold getCompteur
      rw [hf]
  | none =>
      show getCompteur (cs ++ [⟨uid, (pyLower t), y % 100, m, 1⟩])
          uid (pyLower t) (y % 100) m = getCompteur cs uid (pyLower t) (y % 100) m + 1
      rw [getCompteur_append_same cs ⟨uid, (pyLower t), y % 100, m, 1⟩
            uid (pyLower t) (y % 100) m hf (by simp [keyMatch])]
      unfold getCompteur
      rw [hf]

/-- A sequencer call for one key leaves every other key's stored counter
unchanged. -/
theorem getCompteur_generer_other (cs : List Compteur) (uid t : String) (y m : Nat)
    (quid qt : String) (qa qm : Nat)
    (hkey : ¬(uid = quid ∧ (pyLower t) = qt ∧ y % 100 = qa ∧ m = qm)) :
    getCompteur (generer_numero_recu cs uid t y m).2 quid qt qa qm
      = getCompteur cs quid qt qa qm := by
  have hdis : ∀ x : Compteur, keyMatch x quid qt qa qm = true →
      keyMatch x uid (pyLower t) (y % 100) m = false := by
    intro x hq
    cases hg : keyMatch x uid (pyLower t) (y % 100) m
    · rfl
    · exfalso
      simp only [keyMatch, Bool.and_eq_true, beq_iff_eq] at hq hg
      exact hkey ⟨hg.1.1.1.symm.trans hq.1.1.1, hg.1.1.2.symm.trans hq.1.1.2,
        hg.1.2.symm.trans hq.1.2, hg.2.symm.trans hq.2⟩
  simp only [generer_numero_recu]
  cases hf : cs.find? (fun r => keyMatch r uid (pyLower t) (y % 100) m) with
  | some r =>
      show getCompteur (updCompteur cs uid (pyLower t) (y % 100) m (r.compteur + 1))
          quid qt qa qm = getCompteur cs quid qt qa qm
      exact getCompteur_updCompteur_other cs uid (pyLower t) (y % 100) m
        (r.compteur + 1) quid qt qa qm hdis
  | none =>
      show getCompteur (cs ++ [⟨uid, (pyLower t), y % 100, m, 1⟩]) quid qt qa qm
          = getCompteur cs quid qt qa qm
      refine getCompteur_append_other cs ⟨uid, (pyLower t), y % 100, m, 1⟩ quid qt qa qm ?hc
      cases hg : keyMatch ⟨uid, (pyLower t), y % 100, m, 1⟩ quid qt qa qm
      · rfl
      · exfalso
        simp only [keyMatch, Bool.and_eq_true, beq_iff_eq] at hg
        exact hkey ⟨hg.1.1.1, hg.1.1.2, hg.1.2, hg.2⟩

/-- The stored counter of a fresh bucket after `n` sequencer calls is `n`. -/
theorem getCompteur_genIter (uid t : String) (y m : Nat) (n : Nat) :
    getCompteur (genIter uid t y m n) uid (pyLower t) (y % 100) m = n := by
  induction n with
  | zero => rfl
  | succ k ih => rw [genIter, getCompteur_generer, ih]

/-- The source's exam-type table agrees everywhere with the spec's worded
table-plus-default. -/
theorem type_lettre_eq_claim (t : String) : type_lettre t = claimTypeLetter t := by
  unfold type_lettre type_lettres_get claimTypeLetter
  split_ifs <;> rfl

/-- The source's month table agrees with A-to-L lettering on months 1-12. -/
theorem mois_lettre_eq_claim (m : Nat) (h1 : 1 ≤ m) (h2 : m ≤ 12) :
    mois_lettre m = claimMonthLetter m := by
  interval_cases m <;> rfl

/-! ## Claim theorems for the receipt sequencer -/

/-- Claim C7: every successful receipt generation with issued counter `c`, type
`t` and a clock in year `y`, month `m` returns the concatenation of `c`
zero-padded to 3 digits, the fixed-table type letter (case-insensitive,
defaulting to H), `y mod 100` zero-padded to 2 digits, and the month letter A
through L; in particular counter 1, histologie, January 2026 gives 001H26A. -/
theorem recu_format_claim (cs : List Compteur) (uid t : String) (y m : Nat)
    (h1 : 1 ≤ m) (h2 : m ≤ 12) :
    (generer_numero_recu cs uid t y m).1
        = claimFormat (issuedCompteur cs uid t y m) t y m
      ∧ claimFormat 1 "histologie" 2026 1 = "001H26A" := by
  constructor
  · rw [generer_numero_recu_fst, claimFormat, type_lettre_eq_claim,
        mois_lettre_eq_claim m h1 h2]
  · decide

/-- Witness for C7 at a concrete bucket: January 2026, fresh counter,
type histologie. -/
theorem recu_format_claim_witness :
    1 ≤ 1 ∧ (1 : Nat) ≤ 12
      ∧ ((generer_numero_recu [] "lab1" "histologie" 2026 1).1
            = claimFormat (issuedCompteur [] "lab1" "histologie" 2026 1) "histologie" 2026 1
          ∧ claimFormat 1 "histologie" 2026 1 = "001H26A") :=
  ⟨le_refl 1, by decide,
    recu_format_claim [] "lab1" "histologie" 2026 1 (le_refl 1) (by decide)⟩

/-- Claim C8: a successful generation creates the bucket's counter row with
value 1 when absent and otherwise increments it by exactly 1 (first conjunct);
any generation, for any bucket, never decreases any stored counter (second
conjunct); and on a fresh bucket the n-th of a run of sequential generations
issues counter n (third conjunct), so N sequential generations yield 1..N. -/
theorem compteur_bucket_invariant (cs : List Compteur) (uid t : String) (y m : Nat) :
    getCompteur (generer_numero_recu cs uid t y m).2 uid (pyLower t) (y % 100) m
        = getCompteur cs uid (pyLower t) (y % 100) m + 1
      ∧ (∀ (cs2 : List Compteur) (uid2 t2 : String) (y2 m2 : Nat)
          (quid qt : String) (qa qm : Nat),
          getCompteur cs2 quid qt qa qm
            ≤ getCompteur (generer_numero_recu cs2 uid2 t2 y2 m2).2 quid qt qa qm)
      ∧ (∀ n : Nat, issuedCompteur (genIter uid t y m n) uid t y m = n + 1) := by
  refine ⟨getCompteur_generer cs uid t y m, ?mono, ?fresh⟩
  · intro cs2 uid2 t2 y2 m2 quid qt qa qm
    by_cases hkey : uid2 = quid ∧ (pyLower t2) = qt ∧ y2 % 100 = qa ∧ m2 = qm
    · obtain ⟨e1, e2, e3, e4⟩ := hkey
      subst e1; subst e2; subst e3; subst e4
      rw [getCompteur_generer]
      exact Nat.le_succ _
    · rw [getCompteur_generer_other cs2 uid2 t2 y2 m2 quid qt qa qm hkey]
  · intro n
    rw [issuedCompteur_eq_getCompteur, getCompteur_genIter]

/-- Claim C3 is false of the code: the sequencer's counter access is a plain
SELECT followed by an UPDATE of the value computed in Python, not an atomic
read-increment-write.  With the bucket's stored counter at 1, the interleaving
T1-SELECT, T2-SELECT, T1-UPDATE, T2-UPDATE completes both generations, gives
both the counter value 2, and therefore both payments the same receipt code. -/
theorem compteur_race_duplicate :
    (raceRun ⟨some 1, ⟨SeqPc.read, 0⟩, ⟨SeqPc.read, 0⟩⟩ [true, false, true, false]).t1.pc
        = SeqPc.done
      ∧ (raceRun ⟨some 1, ⟨SeqPc.read, 0⟩, ⟨SeqPc.read, 0⟩⟩ [true, false, true, false]).t2.pc
        = SeqPc.done
      ∧ (raceRun ⟨some 1, ⟨SeqPc.read, 0⟩, ⟨SeqPc.read, 0⟩⟩ [true, false, true, false]).t1.localC
        = 2
      ∧ (raceRun ⟨some 1, ⟨SeqPc.read, 0⟩, ⟨SeqPc.read, 0⟩⟩ [true, false, true, false]).t2.localC
        = 2
      ∧ zfill 3 (raceRun ⟨some 1, ⟨SeqPc.read, 0⟩, ⟨SeqPc.read, 0⟩⟩
            [true, false, true, false]).t1.localC ++ type_lettre "histologie"
            ++ zfill 2 26 ++ mois_lettre 1
        = zfill 3 (raceRun ⟨some 1, ⟨SeqPc.read, 0⟩, ⟨SeqPc.read, 0⟩⟩
            [true, false, true, false]).t2.localC ++ type_lettre "histologie"
            ++ zfill 2 26 ++ mois_lettre 1 := by
  refine ⟨rfl, rfl, rfl, rfl, rfl⟩

/-! ## Observers on handler results, and the balance-update lemma -/

/-- The `nouveau_solde` field of a creation response, when it is a 201. -/
def resNouveauSolde : PaiementsResult → Option Int
  | .created _ _ s _ => some s
  | .error _ _ => none

/-- The `message` field of a creation response, when it is a 201. -/
def resMessage : PaiementsResult → Option String
  | .created _ _ _ msg => some msg
  | .error _ _ => none

/-- Whether a creation response is a 201. -/
def resIsCreated : PaiementsResult → Bool
  | .created _ _ _ _ => true
  | .error _ _ => false

/-- The `dette_reglee` field of a partial-payment response, when it is a 201. -/
def resPartielDette : PartielResult → Option Bool
  | .created _ _ d _ => some d
  | .error _ _ => none

/-- The `nouveau_solde` field of a partial-payment response, when it is a 201. -/
def resPartielSolde : PartielResult → Option Int
  | .created _ s _ _ => some s
  | .error _ _ => none

/-- Whether a partial-payment response is a 201. -/
def resPartielIsCreated : PartielResult → Bool
  | .created _ _ _ _ => true
  | .error _ _ => false

/-- After `UPDATE patients SET solde = s WHERE id = pid AND user_id = uid`,
every row with that id and tenant carries `s`. -/
theorem updateSolde_mem (ps : List Patient) (pid : Nat) (uid : String) (s : Int)
    (q : Patient) (hq : q ∈ updateSolde ps pid uid s)
    (h1 : q.id = pid) (h2 : q.userId = uid) : q.solde = s := by
  unfold updateSolde at hq
  obtain ⟨x, hx, hxq⟩ := List.mem_map.mp hq
  by_cases hxm : (x.id == pid && x.userId == uid) = true
  · rw [if_pos hxm] at hxq
    rw [← hxq]
  · rw [if_neg hxm] at hxq
    subst hxq
    exact absurd (by simp [h1, h2]) hxm

/-! ## Claim theorems for the balance ledger -/

/-- Claim C4: a creation with mode `a_terme` (installment) on an existing
patient with balance B, given totalAmount > amountPaid, stores balance
B - (totalAmount - amountPaid), reports that value as `nouveau_solde`, and the
message reports the remaining due totalAmount - amountPaid. -/
theorem a_terme_balance_rule (db : DB) (uid tp : String) (pid : Nat) (p T : Int)
    (ncr : Option String) (uidr : Option Nat) (nts : Option String)
    (y m : Nat) (pt : Patient)
    (hfind : findPatient db.patients pid uid = some pt) (hT : p < T) :
    resNouveauSolde (paiementsPost db uid
        ⟨some pid, some p, some tp, some "a_terme", some T, ncr, uidr, nts⟩ y m).1
        = some (pt.solde - (T - p))
      ∧ resMessage (paiementsPost db uid
          ⟨some pid, some p, some tp, some "a_terme", some T, ncr, uidr, nts⟩ y m).1
        = some ("Paiement à terme enregistré. Reste à payer: " ++ fmt2 (T - p) ++ " DA")
      ∧ ∀ q ∈ (paiementsPost db uid
          ⟨some pid, some p, some tp, some "a_terme", some T, ncr, uidr, nts⟩ y m).2.patients,
          q.id = pid → q.userId = uid → q.solde = pt.solde - (T - p) := by
  have hle : ¬(T ≤ p) := not_le.mpr hT
  refine ⟨?res, ?msg, ?stored⟩ <;>
    simp [paiementsPost, hfind, hle, resNouveauSolde, resMessage]
  intro q hq e1 e2
  exact updateSolde_mem _ pid uid _ q hq e1 e2

/-- Witness for C4: balance 0, installment of 1000 against a total of 3000
stores balance -2000 and reports remaining due 2000.00 DA. -/
theorem a_terme_balance_rule_witness :
    findPatient [⟨1, "u", "A", 0⟩] 1 "u" = some ⟨1, "u", "A", 0⟩
      ∧ (1000 : Int) < 3000
      ∧ (resNouveauSolde (paiementsPost ⟨[⟨1, "u", "A", 0⟩], [], [], 1⟩ "u"
            ⟨some 1, some 1000, some "histologie", some "a_terme", some 3000,
             some "R1", none, none⟩ 2026 1).1
          = some (-2000)
        ∧ resMessage (paiementsPost ⟨[⟨1, "u", "A", 0⟩], [], [], 1⟩ "u"
            ⟨some 1, some 1000, some "histologie", some "a_terme", some 3000,
             some "R1", none, none⟩ 2026 1).1
          = some ("Paiement à terme enregistré. Reste à payer: " ++ fmt2 2000 ++ " DA")
        ∧ ∀ q ∈ (paiementsPost ⟨[⟨1, "u", "A", 0⟩], [], [], 1⟩ "u"
            ⟨some 1, some 1000, some "histologie", some "a_terme", some 3000,
             some "R1", none, none⟩ 2026 1).2.patients,
            q.id = 1 → q.userId = "u" → q.solde = -2000) := by
  refine ⟨by decide, by decide, ?thm⟩
  have h := a_terme_balance_rule ⟨[⟨1, "u", "A", 0⟩], [], [], 1⟩ "u" "histologie"
    1 1000 3000 (some "R1") none none 2026 1 ⟨1, "u", "A", 0⟩ (by decide) (by decide)
  simpa using h

/-- Claim C1 as stated is false of the code: a partial-mode payment through the
generic creation endpoint is stored without the clamp.  Patient balance -500,
partial payment of 700: the stored balance becomes +200, not 0. -/
theorem paiement_partiel_generic_no_clamp :
    resNouveauSolde (paiementsPost ⟨[⟨1, "u", "A", -500⟩], [], [], 1⟩ "u"
        ⟨some 1, some 700, some "histologie", some "paiement_partiel", none,
         some "R1", none, none⟩ 2026 1).1 = some 200
      ∧ (paiementsPost ⟨[⟨1, "u", "A", -500⟩], [], [], 1⟩ "u"
          ⟨some 1, some 700, some "histologie", some "paiement_partiel", none,
           some "R1", none, none⟩ 2026 1).2.patients = [⟨1, "u", "A", 200⟩]
      ∧ (200 : Int) ≠ 0 := by decide

/-- Claim C1, amended: the dedicated partial-payment endpoint stores
B + amountPaid clamped above at 0 and reports debtCleared exactly when
B + amountPaid >= 0; the generic creation endpoint with partial mode stores
B + amountPaid with no clamp and reports no debtCleared flag. -/
theorem paiement_partiel_clamp (db : DB) (uid tp : String) (pid : Nat) (p : Int)
    (ncr : Option String) (uidr : Option Nat) (nts : Option String)
    (y m : Nat) (pt : Patient)
    (hfind : findPatient db.patients pid uid = some pt) :
    (resPartielDette (paiementPartielPost db uid
          ⟨some pid, some p, some tp, ncr, nts⟩ uidr).1
        = some (decide (pt.solde + p ≥ 0))
      ∧ resPartielSolde (paiementPartielPost db uid
          ⟨some pid, some p, some tp, ncr, nts⟩ uidr).1
        = some (if pt.solde + p > 0 then 0 else pt.solde + p)
      ∧ ∀ q ∈ (paiementPartielPost db uid
          ⟨some pid, some p, some tp, ncr, nts⟩ uidr).2.patients,
          q.id = pid → q.userId = uid →
            q.solde = if pt.solde + p > 0 then 0 else pt.solde + p)
    ∧ (resNouveauSolde (paiementsPost db uid
          ⟨some pid, some p, some tp, some "paiement_partiel", none, ncr, uidr, nts⟩ y m).1
        = some (pt.solde + p)
      ∧ ∀ q ∈ (paiementsPost db uid
          ⟨some pid, some p, some tp, some "paiement_partiel", none, ncr, uidr, nts⟩ y m).2.patients,
          q.id = pid → q.userId = uid → q.solde = pt.solde + p) := by
  refine ⟨⟨?dette, ?solde, ?stored⟩, ?gsolde, ?gstored⟩ <;>
    simp [paiementPartielPost, paiementsPost, hfind,
      resPartielDette, resPartielSolde, resNouveauSolde]
  · intro q hq e1 e2
    exact updateSolde_mem _ pid uid _ q hq e1 e2
  · intro q hq e1 e2
    exact updateSolde_mem _ pid uid _ q hq e1 e2

/-- Witness for C1 (amended), at the spec's example: balance -500, partial
payment 700 through the dedicated endpoint clamps to 0 with debt cleared,
while the generic endpoint stores +200. -/
theorem paiement_partiel_clamp_witness :
    findPatient [⟨1, "u", "A", -500⟩] 1 "u" = some ⟨1, "u", "A", -500⟩
      ∧ ((resPartielDette (paiementPartielPost ⟨[⟨1, "u", "A", -500⟩], [], [], 1⟩ "u"
              ⟨some 1, some 700, some "histologie", some "R7", none⟩ none).1
            = some (decide ((-500 : Int) + 700 ≥ 0))
          ∧ resPartielSolde (paiementPartielPost ⟨[⟨1, "u", "A", -500⟩], [], [], 1⟩ "u"
              ⟨some 1, some 700, some "histologie", some "R7", none⟩ none).1
            = some (if (-500 : Int) + 700 > 0 then 0 else (-500 : Int) + 700)
          ∧ ∀ q ∈ (paiementPartielPost ⟨[⟨1, "u", "A", -500⟩], [], [], 1⟩ "u"
              ⟨some 1, some 700, some "histologie", some "R7", none⟩ none).2.patients,
              q.id = 1 → q.userId = "u" →
                q.solde = if (-500 : Int) + 700 > 0 then 0 else (-500 : Int) + 700)
        ∧ (resNouveauSolde (paiementsPost ⟨[⟨1, "u", "A", -500⟩], [], [], 1⟩ "u"
              ⟨some 1, some 700, some "histologie", some "paiement_partiel", none,
               some "R7", none, none⟩ 2026 1).1
            = some ((-500 : Int) + 700)
          ∧ ∀ q ∈ (paiementsPost ⟨[⟨1, "u", "A", -500⟩], [], [], 1⟩ "u"
              ⟨some 1, some 700, some "histologie", some "paiement_partiel", none,
               some "R7", none, none⟩ 2026 1).2.patients,
              q.id = 1 → q.userId = "u" → q.solde = (-500 : Int) + 700)) :=
  ⟨by decide,
    paiement_partiel_clamp ⟨[⟨1, "u", "A", -500⟩], [], [], 1⟩ "u" "histologie"
      1 700 (some "R7") none none 2026 1 ⟨1, "u", "A", -500⟩ (by decide)⟩

/-- Claim C2 as stated is false of the code: on a patient-not-found failure the
receipt counter has already been created (the sequencer commits on its own
connection before the patient lookup).  Empty store, valid request, no supplied
receipt code: the response is 404 yet a counter row with value 1 exists. -/
theorem patient_not_found_counter_mutated :
    (paiementsPost ⟨[], [], [], 1⟩ "u"
        ⟨some 1, some 100, some "histologie", some "espece", none, none, none, none⟩
        2026 1).1
        = PaiementsResult.error 404 "Patient non trouvé"
      ∧ (paiementsPost ⟨[], [], [], 1⟩ "u"
          ⟨some 1, some 100, some "histologie", some "espece", none, none, none, none⟩
          2026 1).2.compteurs
        = [⟨"u", "histologie", 26, 1, 1⟩]
      ∧ (⟨[], [], [], 1⟩ : DB).compteurs = [] := by decide

/-- Claim C2, amended: a missing-required-field error mutates nothing at all;
every non-created outcome of the generic creation endpoint inserts no payment
row and changes no patient balance (the receipt counter may however already
have been written); every non-created outcome of the dedicated partial-payment
endpoint leaves the whole store unchanged. -/
theorem error_no_row_no_balance (db : DB) (uid : String) (req : PaiementRequest)
    (req2 : PartielRequest) (uidr : Option Nat) (y m : Nat) :
    ((req.patient_id.isNone || req.montant.isNone || req.type_paiement.isNone
        || req.mode_paiement.isNone) = true →
      paiementsPost db uid req y m
        = (PaiementsResult.error 400 "Champs obligatoires manquants", db))
    ∧ (resIsCreated (paiementsPost db uid req y m).1 = true
        ∨ ((paiementsPost db uid req y m).2.paiements = db.paiements
            ∧ (paiementsPost db uid req y m).2.patients = db.patients))
    ∧ (resPartielIsCreated (paiementPartielPost db uid req2 uidr).1 = true
        ∨ (paiementPartielPost db uid req2 uidr).2 = db) := by
  refine ⟨?missing, ?generic, ?dedicated⟩
  · intro h
    simp [paiementsPost, h]
  · by_cases h1 : (req.patient_id.isNone || req.montant.isNone
        || req.type_paiement.isNone || req.mode_paiement.isNone) = true
    · right
      simp [paiementsPost, h1]
    · cases hf : findPatient db.patients (req.patient_id.getD 0) uid with
      | none =>
          right
          simp [paiementsPost, h1, hf]
      | some pt =>
          by_cases h2 : (req.mode_paiement.getD "" = "a_terme"
              && decide (req.montant_total.getD 0 ≤ req.montant.getD 0)) = true
          · right
            simp [paiementsPost, h1, hf, h2]
          · left
            simp only [paiementsPost, h1, hf, h2]
            split_ifs <;> simp_all [resIsCreated]
  · by_cases h1 : (req2.patient_id.isNone || req2.montant.isNone) = true
    · right
      simp [paiementPartielPost, h1]
    · cases hf : findPatient db.patients (req2.patient_id.getD 0) uid with
      | none =>
          right
          simp [paiementPartielPost, h1, hf]
      | some pt =>
          left
          simp [paiementPartielPost, h1, hf, resPartielIsCreated]

/-- Witness for C2 (amended): a request with every required field absent is
rejected with the validation error and the store is returned untouched. -/
theorem error_no_row_no_balance_witness :
    paiementsPost ⟨[], [], [], 1⟩ "u" ⟨none, none, none, none, none, none, none, none⟩ 2026 1
      = (PaiementsResult.error 400 "Champs obligatoires manquants", ⟨[], [], [], 1⟩) :=
  (error_no_row_no_balance ⟨[], [], [], 1⟩ "u"
      ⟨none, none, none, none, none, none, none, none⟩
      ⟨none, none, none, none, none⟩ none 2026 1).1 (by decide)

/-- Claim C5: deleting a payment that references a patient recomputes that
patient's stored balance as the plain sum of `montant` over the patient's
remaining payments for the tenant (0 when none remain), ignoring the modes of
the deleted and remaining payments. -/
theorem delete_recompute_sum (db : DB) (uid : String) (id pid : Nat) (pay : Paiement)
    (hfind : db.paiements.find? (fun p => p.userId == uid && p.id == id) = some pay)
    (hpid : pay.patientId = some pid) (hpos : pid ≠ 0) :
    (paiementDelete db uid id).1 = DeleteResult.ok "Paiement supprimé avec succès"
      ∧ ∀ q ∈ (paiementDelete db uid id).2.patients, q.id = pid → q.userId = uid →
          q.solde = sumMontant ((db.paiements.filter
              (fun p => !(p.userId == uid && p.id == id))).filter
            (fun p => p.userId == uid && p.patientId == some pid)) := by
  constructor <;> simp [paiementDelete, hfind, hpid, hpos]
  intro q hq e1 e2
  exact updateSolde_mem _ pid uid _ q hq e1 e2

/-- Witness for C5 at the spec's example: three payments of 50, 40 and 60;
deleting the one worth 50 stores the sum of the remaining two. -/
theorem delete_recompute_sum_witness :
    ([⟨1, "u", some 1, none, 50, "histologie", "espece", none, none, none⟩,
      ⟨2, "u", some 1, none, 40, "histologie", "espece", none, none, none⟩,
      ⟨3, "u", some 1, none, 60, "histologie", "a_terme", some 100, none, none⟩]
        : List Paiement).find? (fun p => p.userId == "u" && p.id == 1)
        = some ⟨1, "u", some 1, none, 50, "histologie", "espece", none, none, none⟩
      ∧ ((paiementDelete ⟨[⟨1, "u", "A", 150⟩],
            [⟨1, "u", some 1, none, 50, "histologie", "espece", none, none, none⟩,
             ⟨2, "u", some 1, none, 40, "histologie", "espece", none, none, none⟩,
             ⟨3, "u", some 1, none, 60, "histologie", "a_terme", some 100, none, none⟩],
            [], 4⟩ "u" 1).1 = DeleteResult.ok "Paiement supprimé avec succès"
        ∧ ∀ q ∈ (paiementDelete ⟨[⟨1, "u", "A", 150⟩],
            [⟨1, "u", some 1, none, 50, "histologie", "espece", none, none, none⟩,
             ⟨2, "u", some 1, none, 40, "histologie", "espece", none, none, none⟩,
             ⟨3, "u", some 1, none, 60, "histologie", "a_terme", some 100, none, none⟩],
            [], 4⟩ "u" 1).2.patients, q.id = 1 → q.userId = "u" →
            q.solde = sumMontant ((([⟨1, "u", some 1, none, 50, "histologie", "espece", none, none, none⟩,
              ⟨2, "u", some 1, none, 40, "histologie", "espece", none, none, none⟩,
              ⟨3, "u", some 1, none, 60, "histologie", "a_terme", some 100, none, none⟩]
                : List Paiement).filter
              (fun p => !(p.userId == "u" && p.id == 1))).filter
              (fun p => p.userId == "u" && p.patientId == some 1))) :=
  ⟨by decide,
    delete_recompute_sum ⟨[⟨1, "u", "A", 150⟩],
      [⟨1, "u", some 1, none, 50, "histologie", "espece", none, none, none⟩,
       ⟨2, "u", some 1, none, 40, "histologie", "espece", none, none, none⟩,
       ⟨3, "u", some 1, none, 60, "histologie", "a_terme", some 100, none, none⟩],
      [], 4⟩ "u" 1 1
      ⟨1, "u", some 1, none, 50, "histologie", "espece", none, none, none⟩
      (by decide) (by decide) (by decide)⟩

/-- Claim C6 as stated is false of the code: a creation request with
`montant = 0` is accepted - no positivity validation exists.  The response is a
201 and the zero-amount row is inserted. -/
theorem montant_zero_accepted :
    resIsCreated (paiementsPost ⟨[⟨1, "u", "A", -100⟩], [], [], 1⟩ "u"
        ⟨some 1, some 0, some "histologie", some "espece", none, some "R1", none, none⟩
        2026 1).1 = true
      ∧ (paiementsPost ⟨[⟨1, "u", "A", -100⟩], [], [], 1⟩ "u"
          ⟨some 1, some 0, some "histologie", some "espece", none, some "R1", none, none⟩
          2026 1).2.paiements
        = [⟨1, "u", some 1, none, 0, "histologie", "espece", none, some "R1", none⟩]
      ∧ ¬((0 : Int) > 0) := by decide

/-- Claim C6, amended: the code never validates the sign of the amount; a
creation request with zero or negative amountPaid on an existing patient is
accepted by both creation endpoints and its row (with that non-positive
`montant`) is inserted. -/
theorem montant_nonpositive_accepted (db : DB) (uid tp mode : String) (pid : Nat)
    (p : Int) (mtot : Option Int) (ncr : Option String) (uidr : Option Nat)
    (nts : Option String) (y m : Nat) (pt : Patient)
    (hfind : findPatient db.patients pid uid = some pt)
    (hp : p ≤ 0) (hm1 : mode ≠ "a_terme") :
    (resIsCreated (paiementsPost db uid
          ⟨some pid, some p, some tp, some mode, mtot, ncr, uidr, nts⟩ y m).1 = true
      ∧ ∃ row : Paiement,
          (paiementsPost db uid
              ⟨some pid, some p, some tp, some mode, mtot, ncr, uidr, nts⟩ y m).2.paiements
            = db.paiements ++ [row] ∧ row.montant = p)
    ∧ (resPartielIsCreated (paiementPartielPost db uid
          ⟨some pid, some p, some tp, ncr, nts⟩ uidr).1 = true
      ∧ ∃ row2 : Paiement,
          (paiementPartielPost db uid
              ⟨some pid, some p, some tp, ncr, nts⟩ uidr).2.paiements
            = db.paiements ++ [row2] ∧ row2.montant = p) := by
  refine ⟨⟨?gc, ?grow⟩, ?pc, ?prow⟩
  · simp [paiementsPost, hfind, hm1, resIsCreated]
    split_ifs <;> rfl
  · simp [paiementsPost, hfind, hm1]
    split_ifs <;> exact ⟨_, rfl, rfl⟩
  · simp [paiementPartielPost, hfind, resPartielIsCreated]
  · simp [paiementPartielPost, hfind]

/-- Witness for C6 (amended): amount 0 on an existing patient is accepted by
both endpoints. -/
theorem montant_nonpositive_accepted_witness :
    findPatient [⟨1, "u", "A", -100⟩] 1 "u" = some ⟨1, "u", "A", -100⟩
      ∧ (0 : Int) ≤ 0
      ∧ "espece" ≠ "a_terme"
      ∧ ((resIsCreated (paiementsPost ⟨[⟨1, "u", "A", -100⟩], [], [], 1⟩ "u"
              ⟨some 1, some 0, some "histologie", some "espece", none, some "R2", none, none⟩
              2026 1).1 = true
          ∧ ∃ row : Paiement,
              (paiementsPost ⟨[⟨1, "u", "A", -100⟩], [], [], 1⟩ "u"
                  ⟨some 1, some 0, some "histologie", some "espece", none, some "R2", none, none⟩
                  2026 1).2.paiements = [] ++ [row] ∧ row.montant = 0)
        ∧ (resPartielIsCreated (paiementPartielPost ⟨[⟨1, "u", "A", -100⟩], [], [], 1⟩ "u"
              ⟨some 1, some 0, some "histologie", some "R2", none⟩ none).1 = true
          ∧ ∃ row2 : Paiement,
              (paiementPartielPost ⟨[⟨1, "u", "A", -100⟩], [], [], 1⟩ "u"
                  ⟨some 1, some 0, some "histologie", some "R2", none⟩ none).2.paiements
                = [] ++ [row2] ∧ row2.montant = 0)) :=
  ⟨by decide, by decide, by decide,
    montant_nonpositive_accepted ⟨[⟨1, "u", "A", -100⟩], [], [], 1⟩ "u" "histologie"
      "espece" 1 0 none (some "R2") none none 2026 1 ⟨1, "u", "A", -100⟩
      (by decide) (by decide) (by decide)⟩

/-- Claim C9: a cash-mode creation (the code's default branch, mode `espece`)
on an existing patient performs no patient UPDATE at all: the patients table is
returned verbatim, and the reported `nouveau_solde` is the unchanged balance. -/
theorem espece_balance_unchanged (db : DB) (uid tp : String) (pid : Nat) (p : Int)
    (mtot : Option Int) (ncr : Option String) (uidr : Option Nat)
    (nts : Option String) (y m : Nat) (pt : Patient)
    (hfind : findPatient db.patients pid uid = some pt) :
    (paiementsPost db uid
        ⟨some pid, some p, some tp, some "espece", mtot, ncr, uidr, nts⟩ y m).2.patients
        = db.patients
      ∧ resNouveauSolde (paiementsPost db uid
          ⟨some pid, some p, some tp, some "espece", mtot, ncr, uidr, nts⟩ y m).1
        = some pt.solde := by
  constructor <;> simp [paiementsPost, hfind, resNouveauSolde]

/-- Witness for C9: a concrete cash payment leaves the patients table
untouched. -/
theorem espece_balance_unchanged_witness :
    findPatient [⟨1, "u", "A", -250⟩] 1 "u" = some ⟨1, "u", "A", -250⟩
      ∧ ((paiementsPost ⟨[⟨1, "u", "A", -250⟩], [], [], 1⟩ "u"
            ⟨some 1, some 300, some "histologie", some "espece", none, some "R3", none, none⟩
            2026 1).2.patients = [⟨1, "u", "A", -250⟩]
        ∧ resNouveauSolde (paiementsPost ⟨[⟨1, "u", "A", -250⟩], [], [], 1⟩ "u"
            ⟨some 1, some 300, some "histologie", some "espece", none, some "R3", none, none⟩
            2026 1).1 = some (Patient.solde ⟨1, "u", "A", -250⟩)) :=
  ⟨by decide,
    espece_balance_unchanged ⟨[⟨1, "u", "A", -250⟩], [], [], 1⟩ "u" "histologie"
      1 300 none (some "R3") none none 2026 1 ⟨1, "u", "A", -250⟩ (by decide)⟩

/-- Claim C10: the payment mode is never validated against an enum: any mode
string other than `a_terme` and `paiement_partiel` (arbitrary strings
included) is accepted, its row is inserted with that literal mode string, and
the patient balance is left unchanged (the cash rule), rather than the request
being rejected with a validation error. -/
theorem mode_not_validated (db : DB) (uid tp mode : String) (pid : Nat) (p : Int)
    (mtot : Option Int) (ncr : Option String) (uidr : Option Nat)
    (nts : Option String) (y m : Nat) (pt : Patient)
    (hfind : findPatient db.patients pid uid = some pt)
    (hm1 : mode ≠ "a_terme") (hm2 : mode ≠ "paiement_partiel") :
    resIsCreated (paiementsPost db uid
        ⟨some pid, some p, some tp, some mode, mtot, ncr, uidr, nts⟩ y m).1 = true
      ∧ (∃ row : Paiement,
          (paiementsPost db uid
              ⟨some pid, some p, some tp, some mode, mtot, ncr, uidr, nts⟩ y m).2.paiements
            = db.paiements ++ [row] ∧ row.modePaiement = mode ∧ row.montant = p)
      ∧ (paiementsPost db uid
          ⟨some pid, some p, some tp, some mode, mtot, ncr, uidr, nts⟩ y m).2.patients
        = db.patients := by
  refine ⟨?created, ?row, ?pat⟩ <;> simp [paiementsPost, hfind, hm1, hm2, resIsCreated]

/-- Witness for C10: the unrecognized mode string `garbage` is accepted and
stored, with the balance untouched. -/
theorem mode_not_validated_witness :
    findPatient [⟨1, "u", "A", -250⟩] 1 "u" = some ⟨1, "u", "A", -250⟩
      ∧ "garbage" ≠ "a_terme"
      ∧ "garbage" ≠ "paiement_partiel"
      ∧ (resIsCreated (paiementsPost ⟨[⟨1, "u", "A", -250⟩], [], [], 1⟩ "u"
            ⟨some 1, some 40, some "histologie", some "garbage", none, some "R4", none, none⟩
            2026 1).1 = true
        ∧ (∃ row : Paiement,
            (paiementsPost ⟨[⟨1, "u", "A", -250⟩], [], [], 1⟩ "u"
                ⟨some 1, some 40, some "histologie", some "garbage", none, some "R4", none, none⟩
                2026 1).2.paiements = [] ++ [row]
              ∧ row.modePaiement = "garbage" ∧ row.montant = 40)
        ∧ (paiementsPost ⟨[⟨1, "u", "A", -250⟩], [], [], 1⟩ "u"
            ⟨some 1, some 40, some "histologie", some "garbage", none, some "R4", none, none⟩
            2026 1).2.patients = [⟨1, "u", "A", -250⟩]) :=
  ⟨by decide, by decide, by decide,
    mode_not_validated ⟨[⟨1, "u", "A", -250⟩], [], [], 1⟩ "u" "histologie" "garbage"
      1 40 none (some "R4") none none 2026 1 ⟨1, "u", "A", -250⟩
      (by decide) (by decide) (by decide)⟩

end Anapath
